import Mathlib

/-!
# Inventory management API — movement/quantity subsystem, shallow embedding

This file embeds the movement-ledger and quantity-projection subsystem of the
inventory-management REST backend (`MovementService`, `MovementRepository`,
`MovementController`, the movement routes and validation schemas) as
executable Lean definitions, and proves or refutes the specification's claims
about it.

Source of truth: `src/business/services/SupplierService.ts` (which contains
`MovementService.createMovement`, `adjustInventory` and the response mapping),
`src/unnamed/part_009` (`MovementRepository`), `src/routes/index.ts`
(movement routes), `src/presentation/middleware/validation.ts`
(`createMovementSchema`, `adjustInventorySchema`) and
`src/presentation/controllers/MovementController.ts`.

Quantities are embedded as `Int` (the TypeScript `number` fields hold the
item quantity and the movement quantity; negative values are representable,
which matters because the code can drive a quantity negative). Identifiers
are embedded as `Nat`.
-/

namespace Inventory

/-- Movement type, from `src/types/index.ts`:
`type: 'IN' | 'OUT' | 'ADJUSTMENT' | 'TRANSFER' | 'RETURN'`. -/
inductive MovementType where
  | IN
  | OUT
  | ADJUSTMENT
  | TRANSFER
  | RETURN
deriving DecidableEq, Repr

/-- Item status, from `src/types/index.ts`:
`status?: 'ACTIVE' | 'INACTIVE' | 'DISCONTINUED' | 'OUT_OF_STOCK'`. -/
inductive ItemStatus where
  | ACTIVE
  | INACTIVE
  | DISCONTINUED
  | OUT_OF_STOCK
deriving DecidableEq, Repr

/-- The fields of an item row that the movement subsystem reads or writes:
`id`, `quantity`, `minQuantity`, `maxQuantity`, `status`. -/
structure Item where
  id : Nat
  quantity : Int
  minQuantity : Int
  maxQuantity : Option Int
  status : ItemStatus
deriving DecidableEq, Repr

/-- A committed movement row (ledger entry), from the Prisma `Movement`
model as used by `MovementService`: generated `id`, plus the request fields
and the optional `userId` attribution. -/
structure Movement where
  id : Nat
  itemId : Nat
  type : MovementType
  quantity : Int
  reason : Option String
  reference : Option String
  notes : Option String
  userId : Option Nat
deriving DecidableEq, Repr

/-- Request payload `CreateMovementRequest` from `src/types/index.ts`. -/
structure CreateMovementRequest where
  itemId : Nat
  type : MovementType
  quantity : Int
  reason : Option String
  reference : Option String
  notes : Option String
deriving DecidableEq, Repr

/-- The persisted state the movement subsystem touches: the item table, the
movement ledger (in commit order), and the generator for movement ids. -/
structure St where
  items : List Item
  movements : List Movement
  nextId : Nat
deriving DecidableEq, Repr

/-- Lookup of an item row by id, as `this.db.items.findById(id)` does. -/
def findById : List Item → Nat → Option Item
  | [], _ => none
  | i :: rest, id => if i.id = id then some i else findById rest id

/-- Replacement of the quantity and status of the row with the given id, as
`prisma.item.update` with `data: { quantity, status }` does. -/
def updateItemById (items : List Item) (id : Nat) (q : Int) (s : ItemStatus) :
    List Item :=
  items.map (fun i => if i.id = id then { i with quantity := q, status := s } else i)

/-- The `switch (data.type)` block of `MovementService.createMovement`
(lines 305–318): starting from `item.quantity`, IN and RETURN add, OUT and
TRANSFER subtract, ADJUSTMENT sets the exact quantity. -/
def newQuantityOf (current : Int) (t : MovementType) (q : Int) : Int :=
  match t with
  | .IN => current + q
  | .RETURN => current + q
  | .OUT => current - q
  | .TRANSFER => current - q
  | .ADJUSTMENT => q

/-- The status expression of `createMovement` (lines 325–326), kept exactly as
written in the source, including the branch on `item.minQuantity` whose two
arms are both `'ACTIVE'`:
`newQuantity === 0 ? 'OUT_OF_STOCK' : newQuantity <= item.minQuantity ? 'ACTIVE' : 'ACTIVE'`. -/
def derivedStatus (newQuantity : Int) (minQuantity : Int) : ItemStatus :=
  if newQuantity = 0 then .OUT_OF_STOCK
  else if newQuantity ≤ minQuantity then .ACTIVE
  else .ACTIVE

/-- The result of a `MovementService` mutation: the `ApiResponse` is either
`success: true` with the committed movement and a message, or
`success: false` with an error string. -/
inductive MovementResult where
  | success (movement : Movement) (message : String)
  | failure (error : String)
deriving DecidableEq, Repr

/-- Returns `true` exactly on the `success` constructor. -/
def MovementResult.isSuccess : MovementResult → Bool
  | .success _ _ => true
  | .failure _ => false

/-- The part of `createMovement` that runs BEFORE the `$transaction`
(lines 252–275): fetch the item (`Item not found`), validate the quantity
(`Quantity must be greater than 0`), and the insufficiency pre-check, which
the source applies only when `data.type === 'OUT'`
(`Insufficient inventory. Available quantity: ` + `item.quantity`).
On success it returns the item row as read at this point; the transaction
body later computes the new quantity from this read value. -/
def preTransactionPhase (st : St) (data : CreateMovementRequest) :
    Except String Item :=
  match findById st.items data.itemId with
  | none => .error "Item not found"
  | some item =>
    if data.quantity ≤ 0 then
      .error "Quantity must be greater than 0"
    else if data.type = MovementType.OUT ∧ item.quantity < data.quantity then
      .error ("Insufficient inventory. Available quantity: " ++ toString item.quantity)
    else
      .ok item

/-- The `$transaction` body of `createMovement` (lines 278–331), applied to
the item row `item` read by `preTransactionPhase`: insert the movement row,
compute `newQuantity` by the switch, and update the item's quantity and
status. Both writes commit together. -/
def transactionPhase (st : St) (item : Item) (data : CreateMovementRequest)
    (userId : Option Nat) : MovementResult × St :=
  let movement : Movement :=
    { id := st.nextId, itemId := data.itemId, type := data.type,
      quantity := data.quantity, reason := data.reason,
      reference := data.reference, notes := data.notes, userId := userId }
  let newQuantity := newQuantityOf item.quantity data.type data.quantity
  (.success movement "Movement created successfully",
   { items := updateItemById st.items data.itemId newQuantity
        (derivedStatus newQuantity item.minQuantity),
     movements := st.movements ++ [movement],
     nextId := st.nextId + 1 })

/-- Embedding of `MovementService.createMovement(data, userId)` (lines
250–345), run to completion with no interleaved caller. `txOk` models whether the
`$transaction` commits: when the transaction itself fails the `catch` block
returns `Failed to create movement` and the rollback leaves the persisted
state untouched. -/
def createMovement (st : St) (data : CreateMovementRequest)
    (userId : Option Nat) (txOk : Bool) : MovementResult × St :=
  match preTransactionPhase st data with
  | .error e => (.failure e, st)
  | .ok item =>
    if txOk then transactionPhase st item data userId
    else (.failure "Failed to create movement", st)

/-- Embedding of `MovementService.adjustInventory(itemId, newQuantity,
reason, userId)` (lines 490–516): fetch the item, build an ADJUSTMENT request with
`quantity = newQuantity` and the generated notes string, and delegate to
`createMovement`. -/
def adjustInventory (st : St) (itemId : Nat) (newQuantity : Int)
    (reason : String) (userId : Option Nat) (txOk : Bool) :
    MovementResult × St :=
  match findById st.items itemId with
  | none => (.failure "Item not found", st)
  | some item =>
    createMovement st
      { itemId := itemId, type := .ADJUSTMENT, quantity := newQuantity,
        reason := some reason, reference := none,
        notes := some ("Inventory adjustment from " ++ toString item.quantity
          ++ " to " ++ toString newQuantity) }
      userId txOk

/-- The quantity stored for the item `id` (if the row exists). -/
def itemQuantity (st : St) (id : Nat) : Option Int :=
  (findById st.items id).map Item.quantity

/-- The status stored for the item `id` (if the row exists). -/
def itemStatus (st : St) (id : Nat) : Option ItemStatus :=
  (findById st.items id).map Item.status

/-- The committed movement history of item `id`, in commit order. -/
def ledgerFor (st : St) (id : Nat) : List Movement :=
  st.movements.filter (fun m => m.itemId = id)

/-- One replay step: apply a committed movement's effect to a running
quantity, using the same switch as `createMovement`. -/
def applyMovement (q : Int) (m : Movement) : Int :=
  newQuantityOf q m.type m.quantity

/-- Replay a movement history from an initial quantity, in commit order. -/
def replay (q0 : Int) (ms : List Movement) : Int :=
  ms.foldl applyMovement q0

/-- Run a list of `createMovement` calls in sequence; each list entry is
(request, userId, whether its transaction commits). -/
def runMovements (st : St) : List (CreateMovementRequest × Option Nat × Bool) → St
  | [] => st
  | c :: cs => runMovements (createMovement st c.1 c.2.1 c.2.2).2 cs

/-- The Quantity Projector table exactly as the spec writes it (section 4.1):
IN and RETURN add, OUT and TRANSFER subtract, ADJUSTMENT is an absolute set.
This definition follows the spec's words; it is compared against the
source-derived switch inside `createMovement`. -/
def quantityProjectorSpec (current : Int) (t : MovementType) (q : Int) : Int :=
  match t with
  | .IN => current + q
  | .RETURN => current + q
  | .OUT => current - q
  | .TRANSFER => current - q
  | .ADJUSTMENT => q

/-- Guard from `MovementController.adjustInventory`
(`src/presentation/controllers/MovementController.ts` lines 206–234): reject a
negative `newQuantity` with `Valid new quantity is required`, otherwise
delegate to `MovementService.adjustInventory`. Note the guard deliberately
admits `newQuantity = 0`, as does `adjustInventorySchema`
(`newQuantity: Joi.number().required().min(0)`). -/
def adjustInventoryController (st : St) (itemId : Nat) (newQuantity : Int)
    (reason : String) (userId : Option Nat) (txOk : Bool) :
    MovementResult × St :=
  if newQuantity < 0 then (.failure "Valid new quantity is required", st)
  else adjustInventory st itemId newQuantity reason userId txOk

/-- The caller-facing movement surface, from `src/routes/index.ts` lines
1771–2231: seven GET routes (all movements, recent, stats, by type, by date
range, by id, by item) and two POST routes (`/movements` →
`MovementController.createMovement` and `/items/:itemId/adjust` →
`MovementController.adjustInventory`). No PUT or DELETE route touches
movements; `MovementRepository.update` and `MovementRepository.delete`
(`src/unnamed/part_009` lines 108–127) exist but no route or service method
on this surface calls them. -/
inductive MovementOp where
  | getAllMovements
  | getRecentMovements (limit : Nat)
  | getMovementStats (itemId : Option Nat)
  | getMovementsByType (t : MovementType)
  | getMovementsByDateRange
  | getMovementById (id : Nat)
  | getMovementsByItem (itemId : Nat)
  | postMovement (data : CreateMovementRequest) (userId : Option Nat) (txOk : Bool)
  | postAdjust (itemId : Nat) (newQuantity : Int) (reason : String)
      (userId : Option Nat) (txOk : Bool)

/-- Effect of each public movement operation on the persisted state. The GET
handlers call only the repository query methods (`findMany`, `findUnique`,
`aggregate`, `count`), which issue no writes, so they leave the state as is;
the POST handlers run `createMovement` / `adjustInventory` (through the
controller guard). -/
def execOp (st : St) : MovementOp → St
  | .postMovement data userId txOk => (createMovement st data userId txOk).2
  | .postAdjust itemId q reason userId txOk =>
      (adjustInventoryController st itemId q reason userId txOk).2
  | _ => st

/-- Two `createMovement` calls racing on the same item: both
`this.db.items.findById` reads resolve against the same initial state before
either call reaches its `$transaction` (the read is issued outside the
transaction, and no row lock or version check guards it), then the two
transaction bodies commit in order. Each call is exactly its
`preTransactionPhase` against the shared initial state followed by its
`transactionPhase`, the same two halves `createMovement` is defined from. -/
def interleavedPair (st : St) (d1 d2 : CreateMovementRequest)
    (u1 u2 : Option Nat) : MovementResult × MovementResult × St :=
  match preTransactionPhase st d1, preTransactionPhase st d2 with
  | .error e1, .error e2 => (.failure e1, .failure e2, st)
  | .error e1, .ok i2 =>
    let r2 := transactionPhase st i2 d2 u2
    (.failure e1, r2.1, r2.2)
  | .ok i1, .error e2 =>
    let r1 := transactionPhase st i1 d1 u1
    (r1.1, .failure e2, r1.2)
  | .ok i1, .ok i2 =>
    let r1 := transactionPhase st i1 d1 u1
    let r2 := transactionPhase r1.2 i2 d2 u2
    (r1.1, r2.1, r2.2)

/-- Non-negativity of every stored item quantity (spec invariant 1). -/
def AllNonneg (st : St) : Prop := ∀ i ∈ st.items, 0 ≤ i.quantity

/-- Replay invariant relative to the per-item initial quantities `init`:
every item that existed initially still exists, and folding the projector
over its committed history from its initial quantity gives its stored
quantity. -/
def ReplayInv (init : Nat → Option Int) (st : St) : Prop :=
  ∀ id q0, init id = some q0 →
    ∃ q, itemQuantity st id = some q ∧ replay q0 (ledgerFor st id) = q

/-- Concrete fixture: an item with 10 units in stock. -/
def stockedItem : Item :=
  { id := 1, quantity := 10, minQuantity := 2, maxQuantity := some 100,
    status := .ACTIVE }

/-- Concrete fixture: a state holding `stockedItem` and an empty ledger. -/
def stockedSt : St := { items := [stockedItem], movements := [], nextId := 0 }

/-- Concrete fixture: an item with 5 units in stock. -/
def lowItem : Item :=
  { id := 1, quantity := 5, minQuantity := 2, maxQuantity := some 100,
    status := .ACTIVE }

/-- Concrete fixture: a state holding `lowItem` and an empty ledger. -/
def lowSt : St := { items := [lowItem], movements := [], nextId := 0 }

/-- Concrete fixture: an IN movement of 5 units of item 1. -/
def inFive : CreateMovementRequest :=
  { itemId := 1, type := .IN, quantity := 5, reason := none,
    reference := none, notes := none }

/-- Concrete fixture: an OUT movement of 6 units of item 1. -/
def outSix : CreateMovementRequest :=
  { itemId := 1, type := .OUT, quantity := 6, reason := none,
    reference := none, notes := none }

/-- Concrete fixture: an OUT movement of 10 units of item 1. -/
def outTen : CreateMovementRequest :=
  { itemId := 1, type := .OUT, quantity := 10, reason := none,
    reference := none, notes := none }

/-- Concrete fixture: a TRANSFER movement of 10 units of item 1. -/
def transferTen : CreateMovementRequest :=
  { itemId := 1, type := .TRANSFER, quantity := 10, reason := none,
    reference := none, notes := none }

/-- Concrete fixture: an ADJUSTMENT movement with target quantity 0. -/
def adjustZero : CreateMovementRequest :=
  { itemId := 1, type := .ADJUSTMENT, quantity := 0, reason := none,
    reference := none, notes := none }

/-- Concrete fixture: an item whose thresholds are tight (3 in stock is at
or below `minQuantity = 50`, and any inflow exceeds `maxQuantity = 4`). -/
def tightItem : Item :=
  { id := 1, quantity := 3, minQuantity := 50, maxQuantity := some 4,
    status := .ACTIVE }

/-- Concrete fixture: an item identical to `tightItem` except for its
thresholds (`minQuantity = 0`, no `maxQuantity`). -/
def looseItem : Item :=
  { id := 1, quantity := 3, minQuantity := 0, maxQuantity := none,
    status := .ACTIVE }

/-- Concrete fixture: a mixed call sequence (one call's transaction fails,
one TRANSFER overdraws) used to exercise replay determinism. -/
def demoCalls : List (CreateMovementRequest × Option Nat × Bool) :=
  [(⟨1, .IN, 5, none, none, none⟩, none, true),
   (⟨1, .OUT, 3, none, none, none⟩, none, true),
   (⟨1, .TRANSFER, 20, none, none, none⟩, some 7, true),
   (⟨1, .ADJUSTMENT, 7, none, none, none⟩, none, false),
   (⟨1, .RETURN, 2, none, none, none⟩, none, true)]

end Inventory

namespace Inventory

/-! ## Helper lemmas -/

/-- Updating a row never changes its id. -/
theorem updateItemById_preserves_id (i : Item) (id : Nat) (q : Int) (s : ItemStatus) :
    (if i.id = id then { i with quantity := q, status := s } else i).id = i.id := by
  split <;> rfl

/-- Lookup after an update: the updated row is found with its new fields,
every other row is unchanged. -/
theorem findById_updateItemById (items : List Item) (id : Nat) (q : Int)
    (s : ItemStatus) (id' : Nat) :
    findById (updateItemById items id q s) id' =
      (findById items id').map
        (fun i => if i.id = id then { i with quantity := q, status := s } else i) := by
  induction items with
  | nil => rfl
  | cons i rest ih =>
    simp only [updateItemById, List.map_cons] at ih ⊢
    simp only [findById, updateItemById_preserves_id]
    by_cases h : i.id = id'
    · simp [h]
    · simp only [if_neg h]
      exact ih

/-- A found row carries the id it was looked up by. -/
theorem findById_id {items : List Item} {id : Nat} {i : Item}
    (h : findById items id = some i) : i.id = id := by
  induction items with
  | nil => cases h
  | cons j rest ih =>
    simp only [findById] at h
    by_cases hj : j.id = id
    · rw [if_pos hj] at h
      cases h
      exact hj
    · rw [if_neg hj] at h
      exact ih h

/-- A found row is a member of the table. -/
theorem findById_mem {items : List Item} {id : Nat} {i : Item}
    (h : findById items id = some i) : i ∈ items := by
  induction items with
  | nil => cases h
  | cons j rest ih =>
    simp only [findById] at h
    by_cases hj : j.id = id
    · rw [if_pos hj] at h
      cases h
      exact List.mem_cons_self _ _
    · rw [if_neg hj] at h
      exact List.mem_cons_of_mem _ (ih h)

/-- Inversion of the pre-transaction phase: success means the item was found,
the quantity was positive, and the OUT insufficiency guard did not fire. -/
theorem preTransactionPhase_ok {st : St} {data : CreateMovementRequest} {item : Item}
    (h : preTransactionPhase st data = .ok item) :
    findById st.items data.itemId = some item ∧ 0 < data.quantity ∧
      ¬(data.type = MovementType.OUT ∧ item.quantity < data.quantity) := by
  unfold preTransactionPhase at h
  split at h
  · cases h
  next i hf =>
    split at h
    · cases h
    next h1 =>
      split at h
      · cases h
      next h2 =>
        cases h
        exact ⟨hf, lt_of_not_le h1, h2⟩

/-- Case analysis on a full `createMovement` call: either it fails and
returns the state untouched, or the pre-transaction phase succeeded, the
transaction committed, and the call returns exactly the transaction body's
result. -/
theorem createMovement_cases (st : St) (data : CreateMovementRequest)
    (userId : Option Nat) (txOk : Bool) :
    (∃ e, createMovement st data userId txOk = (.failure e, st)) ∨
    (∃ item, preTransactionPhase st data = .ok item ∧
      createMovement st data userId txOk = transactionPhase st item data userId) := by
  unfold createMovement
  cases hp : preTransactionPhase st data with
  | error e => exact Or.inl ⟨e, rfl⟩
  | ok item =>
    cases txOk with
    | false => exact Or.inl ⟨"Failed to create movement", rfl⟩
    | true => exact Or.inr ⟨item, rfl, rfl⟩

/-- The ledger after any `createMovement` call extends the previous ledger:
nothing already committed is modified or removed. -/
theorem createMovement_movements_extend (st : St) (data : CreateMovementRequest)
    (userId : Option Nat) (txOk : Bool) :
    ∃ tail, (createMovement st data userId txOk).2.movements = st.movements ++ tail := by
  rcases createMovement_cases st data userId txOk with ⟨e, he⟩ | ⟨item, _, he⟩
  · exact ⟨[], by rw [he]; simp⟩
  · exact ⟨_, by rw [he]; rfl⟩

/-- The ledger after any `adjustInventory` call extends the previous ledger. -/
theorem adjustInventory_movements_extend (st : St) (itemId : Nat) (q : Int)
    (reason : String) (userId : Option Nat) (txOk : Bool) :
    ∃ tail, (adjustInventory st itemId q reason userId txOk).2.movements =
      st.movements ++ tail := by
  unfold adjustInventory
  cases hf : findById st.items itemId with
  | none => exact ⟨[], by simp⟩
  | some item => exact createMovement_movements_extend st _ userId txOk

/-- The derived status only looks at whether the new quantity is zero: the
`minQuantity` comparison has `ACTIVE` in both arms. -/
theorem derivedStatus_eq (n m : Int) :
    derivedStatus n m = if n = 0 then ItemStatus.OUT_OF_STOCK else ItemStatus.ACTIVE := by
  unfold derivedStatus
  by_cases h : n = 0
  · rw [if_pos h, if_pos h]
  · rw [if_neg h, if_neg h, ite_self]

end Inventory

namespace Inventory

/-- The source's quantity switch agrees with the spec's Quantity Projector
table on every movement type. -/
theorem newQuantityOf_eq_spec (current : Int) (t : MovementType) (q : Int) :
    newQuantityOf current t q = quantityProjectorSpec current t q := by
  cases t <;> rfl

/-- What the transaction body commits, given that the pre-transaction read
found `item`: a success result carrying the inserted movement, the ledger
extended by exactly that movement, and the item's quantity and status set
from the switch and the status expression. -/
theorem transactionPhase_spec (st : St) (item : Item)
    (data : CreateMovementRequest) (userId : Option Nat)
    (hfind : findById st.items data.itemId = some item) :
    ∃ m msg st', transactionPhase st item data userId = (.success m msg, st') ∧
      st'.movements = st.movements ++ [m] ∧
      itemQuantity st' data.itemId =
        some (newQuantityOf item.quantity data.type data.quantity) ∧
      itemStatus st' data.itemId =
        some (derivedStatus (newQuantityOf item.quantity data.type data.quantity)
          item.minQuantity) := by
  have hii : item.id = data.itemId := findById_id hfind
  refine ⟨_, _, _, rfl, rfl, ?_, ?_⟩
  · unfold itemQuantity
    show (findById (updateItemById st.items data.itemId _ _) data.itemId).map
      Item.quantity = _
    rw [findById_updateItemById, hfind]
    simp [hii]
  · unfold itemStatus
    show (findById (updateItemById st.items data.itemId _ _) data.itemId).map
      Item.status = _
    rw [findById_updateItemById, hfind]
    simp [hii]

/-- Single-step preservation of non-negativity for every movement type other
than TRANSFER: a failed call leaves the state alone, and an accepted IN,
RETURN, OUT or ADJUSTMENT cannot drive any quantity negative. -/
theorem createMovement_preserves_nonneg (st : St) (data : CreateMovementRequest)
    (userId : Option Nat) (txOk : Bool) (h : AllNonneg st)
    (ht : data.type ≠ MovementType.TRANSFER) :
    AllNonneg (createMovement st data userId txOk).2 := by
  rcases createMovement_cases st data userId txOk with ⟨e, he⟩ | ⟨item, hpre, he⟩
  · rw [he]; exact h
  · rw [he]
    obtain ⟨hfind, hqpos, hguard⟩ := preTransactionPhase_ok hpre
    have hitem : 0 ≤ item.quantity := h item (findById_mem hfind)
    have hq' : 0 ≤ newQuantityOf item.quantity data.type data.quantity := by
      cases htype : data.type with
      | IN => simp only [newQuantityOf]; omega
      | RETURN => simp only [newQuantityOf]; omega
      | ADJUSTMENT => simp only [newQuantityOf]; omega
      | TRANSFER => exact absurd htype ht
      | OUT =>
        have hle : ¬ item.quantity < data.quantity := fun hlt => hguard ⟨htype, hlt⟩
        simp only [newQuantityOf]
        omega
    intro i hi
    simp only [transactionPhase, updateItemById, List.mem_map] at hi
    rcases hi with ⟨j, hj, rfl⟩
    by_cases hjid : j.id = data.itemId
    · rw [if_pos hjid]; exact hq'
    · rw [if_neg hjid]; exact h j hj

end Inventory

namespace Inventory

/-- One `createMovement` call preserves the replay invariant: a failed call
changes nothing, and an accepted call extends the item's history by exactly
the movement whose effect was applied to its quantity. -/
theorem replayInv_step (init : Nat → Option Int) (st : St)
    (data : CreateMovementRequest) (userId : Option Nat) (txOk : Bool)
    (h : ReplayInv init st) :
    ReplayInv init (createMovement st data userId txOk).2 := by
  rcases createMovement_cases st data userId txOk with ⟨e, he⟩ | ⟨item, hpre, he⟩
  · rw [he]; exact h
  · rw [he]
    obtain ⟨hfind, -, -⟩ := preTransactionPhase_ok hpre
    have hii : item.id = data.itemId := findById_id hfind
    intro id q0 h0
    obtain ⟨q, hq, hr⟩ := h id q0 h0
    by_cases hid : id = data.itemId
    · subst hid
      have hqitem : q = item.quantity := by
        unfold itemQuantity at hq
        rw [hfind] at hq
        simp only [Option.map_some', Option.some.injEq] at hq
        exact hq.symm
      refine ⟨newQuantityOf item.quantity data.type data.quantity, ?_, ?_⟩
      · unfold itemQuantity
        simp only [transactionPhase]
        rw [findById_updateItemById, hfind]
        simp [hii]
      · unfold ledgerFor replay at hr ⊢
        simp only [transactionPhase]
        rw [List.filter_append, List.foldl_append]
        simp only [List.filter_cons, List.filter_nil, decide_True,
          decide_eq_true_eq]
        simp only [if_true, List.foldl_cons, List.foldl_nil]
        rw [hr, hqitem]
        rfl
    · refine ⟨q, ?_, ?_⟩
      · unfold itemQuantity at hq ⊢
        simp only [transactionPhase]
        rw [findById_updateItemById]
        cases hfid : findById st.items id with
        | none => rw [hfid] at hq; cases hq
        | some i =>
          rw [hfid] at hq
          have hiid : i.id = id := findById_id hfid
          have hcond : ¬ i.id = data.itemId := fun hh => hid (hiid ▸ hh)
          simp only [Option.map_some', if_neg hcond]
          exact hq
      · unfold ledgerFor replay at hr ⊢
        simp only [transactionPhase]
        rw [List.filter_append]
        simp only [List.filter_cons, List.filter_nil, decide_eq_true_eq]
        rw [if_neg (fun hh => hid hh.symm), List.append_nil]
        exact hr

/-- Running any call sequence preserves the replay invariant. -/
theorem replayInv_run (init : Nat → Option Int) (st : St)
    (cs : List (CreateMovementRequest × Option Nat × Bool))
    (h : ReplayInv init st) : ReplayInv init (runMovements st cs) := by
  induction cs generalizing st with
  | nil => exact h
  | cons c cs ih => exact ih _ (replayInv_step init st c.1 c.2.1 c.2.2 h)

end Inventory

namespace Inventory

/-! ## Claim theorems -/

/-- C1 (amended): for every state with all item quantities non-negative and
every sequence of `createMovement` calls none of which is a TRANSFER, every
item quantity is non-negative after each operation (each intermediate state
is itself an instance of this statement). The restriction to non-TRANSFER
types is forced: the insufficiency pre-check fires only for OUT, so an
accepted TRANSFER can drive a quantity negative. -/
theorem claim1_nonneg_preserved_without_transfer (st : St)
    (cs : List (CreateMovementRequest × Option Nat × Bool))
    (h : AllNonneg st)
    (ht : ∀ c ∈ cs, c.1.type ≠ MovementType.TRANSFER) :
    AllNonneg (runMovements st cs) := by
  induction cs generalizing st with
  | nil => exact h
  | cons c cs ih =>
    exact ih (createMovement st c.1 c.2.1 c.2.2).2
      (createMovement_preserves_nonneg st c.1 c.2.1 c.2.2 h
        (ht c (List.mem_cons_self c cs)))
      (fun c' hc' => ht c' (List.mem_cons_of_mem c hc'))

/-- C1 witness: the non-negativity theorem applied to a concrete state and a
concrete TRANSFER-free call sequence. -/
theorem claim1_witness :
    AllNonneg (runMovements stockedSt [(inFive, none, true), (outTen, none, true)]) :=
  claim1_nonneg_preserved_without_transfer stockedSt
    [(inFive, none, true), (outTen, none, true)]
    (by intro i hi
        simp only [stockedSt, stockedItem, List.mem_singleton] at hi
        subst hi
        decide)
    (by intro c hc
        simp only [List.mem_cons, List.mem_singleton] at hc
        rcases hc with rfl | rfl | h
        · decide
        · decide
        · cases h)

/-- C1 counterexample: a TRANSFER of 10 units from an item holding 5 is
accepted by `createMovement` and leaves the stored quantity at −5, so the
claim as stated (non-negativity after every accepted movement of any type)
is false. -/
theorem claim1_counterexample :
    (createMovement lowSt transferTen none true).1.isSuccess = true ∧
    ¬ AllNonneg (createMovement lowSt transferTen none true).2 := by
  constructor
  · decide
  · intro h
    exact absurd
      (h { id := 1, quantity := -5, minQuantity := 2, maxQuantity := some 100,
           status := .ACTIVE } (by decide))
      (by decide)

/-- C2 (amended): the insufficiency guard holds for OUT movements — an OUT
request with positive quantity exceeding the stored quantity fails with the
`Insufficient inventory` error carrying the available quantity, leaving the
state (items and ledger) exactly as before. The same guard does NOT apply to
TRANSFER, which the source exempts. -/
theorem claim2_out_guard (st : St) (data : CreateMovementRequest)
    (userId : Option Nat) (txOk : Bool) (item : Item)
    (hfind : findById st.items data.itemId = some item)
    (htype : data.type = MovementType.OUT)
    (hqpos : 0 < data.quantity)
    (hinsuf : item.quantity < data.quantity) :
    createMovement st data userId txOk =
      (.failure ("Insufficient inventory. Available quantity: "
        ++ toString item.quantity), st) := by
  have hpre : preTransactionPhase st data =
      .error ("Insufficient inventory. Available quantity: "
        ++ toString item.quantity) := by
    unfold preTransactionPhase
    simp only [hfind]
    rw [if_neg (not_le.mpr hqpos), if_pos ⟨htype, hinsuf⟩]
  unfold createMovement
  simp only [hpre]

/-- C2 witness: the OUT guard applied to a concrete overdraft request. -/
theorem claim2_witness :
    createMovement lowSt outTen none true =
      (.failure ("Insufficient inventory. Available quantity: "
        ++ toString lowItem.quantity), lowSt) :=
  claim2_out_guard lowSt outTen none true lowItem (by decide) (by decide)
    (by decide) (by decide)

/-- C2 counterexample: a TRANSFER of 10 units against a stored quantity of 5
is NOT rejected — it succeeds, changes the quantity to −5 and appends to the
ledger, so the claim's OUT/TRANSFER guard is false for TRANSFER. -/
theorem claim2_counterexample :
    (createMovement lowSt transferTen none true).1.isSuccess = true ∧
    itemQuantity (createMovement lowSt transferTen none true).2 1 = some (-5) ∧
    (createMovement lowSt transferTen none true).2.movements ≠ lowSt.movements := by
  refine ⟨by decide, by decide, by decide⟩

/-- C3: every `createMovement` call either fails returning the state exactly
as it was (no item change, no ledger change), or succeeds returning the
committed movement, with the ledger extended by exactly that movement and the
item's quantity updated by its effect in the same step. -/
theorem claim3_atomicity (st : St) (data : CreateMovementRequest)
    (userId : Option Nat) (txOk : Bool) :
    (∃ e, createMovement st data userId txOk = (.failure e, st)) ∨
    (∃ m msg st' item,
      createMovement st data userId txOk = (.success m msg, st') ∧
      st'.movements = st.movements ++ [m] ∧
      findById st.items data.itemId = some item ∧
      itemQuantity st' data.itemId =
        some (newQuantityOf item.quantity data.type data.quantity)) := by
  rcases createMovement_cases st data userId txOk with h | ⟨item, hpre, he⟩
  · exact Or.inl h
  · right
    obtain ⟨hfind, -, -⟩ := preTransactionPhase_ok hpre
    obtain ⟨m, msg, st', heq, hmov, hquant, -⟩ :=
      transactionPhase_spec st item data userId hfind
    exact ⟨m, msg, st', item, he.trans heq, hmov, hfind, hquant⟩

/-- C4 (code bug): adjusting to quantity 0 is rejected. The controller guard
and the `adjustInventorySchema` deliberately admit `newQuantity = 0`, and the
spec says ADJUSTMENT accepts every quantity ≥ 0 (0 yielding OUT_OF_STOCK),
but `createMovement` applies its `quantity <= 0` validation to ADJUSTMENT
too, so both the direct ADJUSTMENT request with quantity 0 and the
adjust-inventory route with `newQuantity = 0` fail with
`Quantity must be greater than 0` and change nothing. -/
theorem claim4_adjust_to_zero_rejected :
    createMovement lowSt adjustZero none true =
      (.failure "Quantity must be greater than 0", lowSt) ∧
    adjustInventoryController lowSt 1 0 "Stock recount" none true =
      (.failure "Quantity must be greater than 0", lowSt) := by
  refine ⟨by decide, by decide⟩

/-- C5: on every accepted call, the quantity stored for the item equals the
spec's Quantity Projector table applied to the previously stored quantity,
the movement type and the movement quantity. -/
theorem claim5_projection_matches_spec_table (st : St)
    (data : CreateMovementRequest) (userId : Option Nat) (txOk : Bool)
    (item : Item)
    (hfind : findById st.items data.itemId = some item)
    (hsuc : (createMovement st data userId txOk).1.isSuccess = true) :
    itemQuantity (createMovement st data userId txOk).2 data.itemId =
      some (quantityProjectorSpec item.quantity data.type data.quantity) := by
  rcases createMovement_cases st data userId txOk with ⟨e, he⟩ | ⟨item', hpre, he⟩
  · rw [he] at hsuc; cases hsuc
  · obtain ⟨hfind', -, -⟩ := preTransactionPhase_ok hpre
    rw [hfind] at hfind'
    cases hfind'
    obtain ⟨m, msg, st', heq, -, hquant, -⟩ :=
      transactionPhase_spec st item data userId hfind
    rw [he, heq]
    rw [← newQuantityOf_eq_spec]
    exact hquant

/-- C5 witness: the projection theorem applied to a concrete IN movement. -/
theorem claim5_witness :
    itemQuantity (createMovement stockedSt inFive none true).2 1 =
      some (quantityProjectorSpec stockedItem.quantity MovementType.IN 5) :=
  claim5_projection_matches_spec_table stockedSt inFive none true stockedItem
    (by decide) (by decide)

end Inventory

namespace Inventory

/-- C6: replay determinism — starting from any item table with an empty
ledger, after any sequence of `createMovement` calls, folding the projector
over an item's committed history in commit order from its initial quantity
reproduces its stored quantity exactly. -/
theorem claim6_replay_determinism (items : List Item) (n : Nat)
    (cs : List (CreateMovementRequest × Option Nat × Bool)) (id : Nat) (q0 : Int)
    (h0 : itemQuantity { items := items, movements := [], nextId := n } id = some q0) :
    ∃ q, itemQuantity
        (runMovements { items := items, movements := [], nextId := n } cs) id = some q ∧
      replay q0 (ledgerFor
        (runMovements { items := items, movements := [], nextId := n } cs) id) = q := by
  have hbase : ReplayInv
      (fun j => itemQuantity { items := items, movements := [], nextId := n } j)
      { items := items, movements := [], nextId := n } := by
    intro j r hj
    exact ⟨r, hj, rfl⟩
  exact replayInv_run _ _ cs hbase id q0 h0

/-- C6 witness: replay determinism at a concrete item and a concrete mixed
call sequence (including a failed transaction and a TRANSFER overdraw). -/
theorem claim6_witness :
    ∃ q, itemQuantity
        (runMovements { items := [stockedItem], movements := [], nextId := 0 }
          demoCalls) 1 = some q ∧
      replay 10 (ledgerFor
        (runMovements { items := [stockedItem], movements := [], nextId := 0 }
          demoCalls) 1) = q :=
  claim6_replay_determinism [stockedItem] 0 demoCalls 1 10 (by decide)

/-- C7: after every successful `createMovement`, the stored status of the
item is OUT_OF_STOCK exactly when the new stored quantity is 0 and ACTIVE
otherwise — the right-hand side mentions only the new quantity, so the
result is independent of the prior status and of `minQuantity`. -/
theorem claim7_status_derivation (st : St) (data : CreateMovementRequest)
    (userId : Option Nat) (txOk : Bool)
    (hsuc : (createMovement st data userId txOk).1.isSuccess = true) :
    ∃ q, itemQuantity (createMovement st data userId txOk).2 data.itemId = some q ∧
      itemStatus (createMovement st data userId txOk).2 data.itemId =
        some (if q = 0 then ItemStatus.OUT_OF_STOCK else ItemStatus.ACTIVE) := by
  rcases createMovement_cases st data userId txOk with ⟨e, he⟩ | ⟨item, hpre, he⟩
  · rw [he] at hsuc; cases hsuc
  · obtain ⟨hfind, -, -⟩ := preTransactionPhase_ok hpre
    obtain ⟨m, msg, st', heq, -, hquant, hstat⟩ :=
      transactionPhase_spec st item data userId hfind
    refine ⟨newQuantityOf item.quantity data.type data.quantity, ?_, ?_⟩
    · rw [he, heq]; exact hquant
    · rw [he, heq, hstat, derivedStatus_eq]

/-- C7 witness: the status derivation applied to a concrete OUT movement
that drains the item to exactly 0 (status becomes OUT_OF_STOCK). -/
theorem claim7_witness :
    ∃ q, itemQuantity (createMovement stockedSt outTen none true).2 1 = some q ∧
      itemStatus (createMovement stockedSt outTen none true).2 1 =
        some (if q = 0 then ItemStatus.OUT_OF_STOCK else ItemStatus.ACTIVE) :=
  claim7_status_derivation stockedSt outTen none true (by decide)

/-- C8: the movement ledger is append-only across the whole caller-facing
movement surface — after any of the seven GET routes or the two POST routes,
the resulting ledger is the previous ledger extended by a (possibly empty)
tail: no committed entry is ever modified or deleted.
(`MovementRepository.update` and `MovementRepository.delete` exist in the
repository layer but are reachable from none of these operations.) -/
theorem claim8_ledger_append_only (op : MovementOp) (st : St) :
    ∃ tail, (execOp st op).movements = st.movements ++ tail := by
  cases op
  case postMovement data userId txOk =>
    exact createMovement_movements_extend st data userId txOk
  case postAdjust itemId q reason userId txOk =>
    show ∃ tail, (adjustInventoryController st itemId q reason userId txOk).2.movements
      = st.movements ++ tail
    unfold adjustInventoryController
    by_cases hq : q < 0
    · rw [if_pos hq]
      exact ⟨[], (List.append_nil _).symm⟩
    · rw [if_neg hq]
      exact adjustInventory_movements_extend st itemId q reason userId txOk
  all_goals exact ⟨[], (List.append_nil _).symm⟩

/-- C9 (code bug): the read-check-act race. Both calls read the item outside
the `$transaction` and no lock or version check serializes them, so in the
interleaving where both reads see the initial quantity 10, two concurrent
OUT movements of 6 BOTH succeed; the stored quantity ends at 4 (one update
is lost) while replaying the committed ledger gives 10 − 6 − 6 = −2. Run
serially, the same two calls give one success and one `Insufficient
inventory` failure, which is the behavior the spec mandates. -/
theorem claim9_race_both_succeed :
    (interleavedPair stockedSt outSix outSix none none).1.isSuccess = true ∧
    (interleavedPair stockedSt outSix outSix none none).2.1.isSuccess = true ∧
    itemQuantity (interleavedPair stockedSt outSix outSix none none).2.2 1 =
      some 4 ∧
    replay 10 (ledgerFor (interleavedPair stockedSt outSix outSix none none).2.2 1) =
      -2 ∧
    (createMovement (createMovement stockedSt outSix none true).2
      outSix none true).1.isSuccess = false := by
  refine ⟨by decide, by decide, by decide, by decide, by decide⟩

end Inventory

namespace Inventory

/-- C10: the outcome of `createMovement` does not depend on the item's
`minQuantity` and `maxQuantity` — for two items identical except for those
thresholds, the returned result (acceptance decision, committed movement and
message, or error) and the resulting stored quantity and status coincide.
In particular a movement crossing either threshold is accepted and, when the
new quantity is nonzero, stored with status ACTIVE. -/
theorem claim10_threshold_independence (i1 i2 : Item) (ms : List Movement)
    (n : Nat) (data : CreateMovementRequest) (userId : Option Nat) (txOk : Bool)
    (hid : i1.id = i2.id) (hq : i1.quantity = i2.quantity)
    (hs : i1.status = i2.status) :
    (createMovement { items := [i1], movements := ms, nextId := n }
        data userId txOk).1 =
      (createMovement { items := [i2], movements := ms, nextId := n }
        data userId txOk).1 ∧
    itemQuantity (createMovement { items := [i1], movements := ms, nextId := n }
        data userId txOk).2 data.itemId =
      itemQuantity (createMovement { items := [i2], movements := ms, nextId := n }
        data userId txOk).2 data.itemId ∧
    itemStatus (createMovement { items := [i1], movements := ms, nextId := n }
        data userId txOk).2 data.itemId =
      itemStatus (createMovement { items := [i2], movements := ms, nextId := n }
        data userId txOk).2 data.itemId := by
  have hmem2 : (i2.id = data.itemId) ↔ (i1.id = data.itemId) := by rw [hid]
  by_cases hmem : i1.id = data.itemId
  · have f1 : findById [i1] data.itemId = some i1 := by
      unfold findById; rw [if_pos hmem]
    have f2 : findById [i2] data.itemId = some i2 := by
      unfold findById; rw [if_pos (hmem2.mpr hmem)]
    by_cases hq0 : data.quantity ≤ 0
    · have p1 : preTransactionPhase { items := [i1], movements := ms, nextId := n }
          data = .error "Quantity must be greater than 0" := by
        unfold preTransactionPhase
        simp only [f1]
        rw [if_pos hq0]
      have p2 : preTransactionPhase { items := [i2], movements := ms, nextId := n }
          data = .error "Quantity must be greater than 0" := by
        unfold preTransactionPhase
        simp only [f2]
        rw [if_pos hq0]
      unfold createMovement
      simp only [p1, p2, itemQuantity, itemStatus, f1, f2, Option.map_some',
        hq, hs]
      refine ⟨?_, ?_, ?_⟩ <;> trivial
    · by_cases hguard : data.type = MovementType.OUT ∧ i1.quantity < data.quantity
      · have hguard2 : data.type = MovementType.OUT ∧ i2.quantity < data.quantity := by
          rw [← hq]; exact hguard
        have p1 : preTransactionPhase { items := [i1], movements := ms, nextId := n }
            data = .error ("Insufficient inventory. Available quantity: "
              ++ toString i1.quantity) := by
          unfold preTransactionPhase
          simp only [f1]
          rw [if_neg hq0, if_pos hguard]
        have p2 : preTransactionPhase { items := [i2], movements := ms, nextId := n }
            data = .error ("Insufficient inventory. Available quantity: "
              ++ toString i2.quantity) := by
          unfold preTransactionPhase
          simp only [f2]
          rw [if_neg hq0, if_pos hguard2]
        unfold createMovement
        simp only [p1, p2, itemQuantity, itemStatus, f1, f2, Option.map_some',
          hq, hs]
        refine ⟨?_, ?_, ?_⟩ <;> trivial
      · have hguard2 : ¬(data.type = MovementType.OUT ∧ i2.quantity < data.quantity) := by
          rw [← hq]; exact hguard
        have p1 : preTransactionPhase { items := [i1], movements := ms, nextId := n }
            data = .ok i1 := by
          unfold preTransactionPhase
          simp only [f1]
          rw [if_neg hq0, if_neg hguard]
        have p2 : preTransactionPhase { items := [i2], movements := ms, nextId := n }
            data = .ok i2 := by
          unfold preTransactionPhase
          simp only [f2]
          rw [if_neg hq0, if_neg hguard2]
        cases txOk with
        | false =>
          unfold createMovement
          simp only [p1, p2, Bool.false_eq_true, if_false, itemQuantity,
            itemStatus, f1, f2, Option.map_some', hq, hs]
          refine ⟨?_, ?_, ?_⟩ <;> trivial
        | true =>
          have c1 : createMovement { items := [i1], movements := ms, nextId := n }
              data userId true =
              transactionPhase { items := [i1], movements := ms, nextId := n }
                i1 data userId := by
            unfold createMovement
            simp only [p1, if_true]
          have c2 : createMovement { items := [i2], movements := ms, nextId := n }
              data userId true =
              transactionPhase { items := [i2], movements := ms, nextId := n }
                i2 data userId := by
            unfold createMovement
            simp only [p2, if_true]
          have hq1 : itemQuantity
              (transactionPhase { items := [i1], movements := ms, nextId := n }
                i1 data userId).2 data.itemId =
              some (newQuantityOf i1.quantity data.type data.quantity) := by
            obtain ⟨m, msg, st', heq, -, hq', -⟩ :=
              transactionPhase_spec { items := [i1], movements := ms, nextId := n }
                i1 data userId f1
            rw [heq]; exact hq'
          have hq2 : itemQuantity
              (transactionPhase { items := [i2], movements := ms, nextId := n }
                i2 data userId).2 data.itemId =
              some (newQuantityOf i2.quantity data.type data.quantity) := by
            obtain ⟨m, msg, st', heq, -, hq', -⟩ :=
              transactionPhase_spec { items := [i2], movements := ms, nextId := n }
                i2 data userId f2
            rw [heq]; exact hq'
          have hs1 : itemStatus
              (transactionPhase { items := [i1], movements := ms, nextId := n }
                i1 data userId).2 data.itemId =
              some (derivedStatus
                (newQuantityOf i1.quantity data.type data.quantity)
                i1.minQuantity) := by
            obtain ⟨m, msg, st', heq, -, -, hs'⟩ :=
              transactionPhase_spec { items := [i1], movements := ms, nextId := n }
                i1 data userId f1
            rw [heq]; exact hs'
          have hs2 : itemStatus
              (transactionPhase { items := [i2], movements := ms, nextId := n }
                i2 data userId).2 data.itemId =
              some (derivedStatus
                (newQuantityOf i2.quantity data.type data.quantity)
                i2.minQuantity) := by
            obtain ⟨m, msg, st', heq, -, -, hs'⟩ :=
              transactionPhase_spec { items := [i2], movements := ms, nextId := n }
                i2 data userId f2
            rw [heq]; exact hs'
          rw [c1, c2]
          refine ⟨rfl, ?_, ?_⟩
          · rw [hq1, hq2, hq]
          · rw [hs1, hs2, derivedStatus_eq, derivedStatus_eq, hq]
  · have hmemn2 : ¬ i2.id = data.itemId := fun hh => hmem (hid.trans hh)
    have f1 : findById [i1] data.itemId = none := by
      unfold findById; rw [if_neg hmem]; rfl
    have f2 : findById [i2] data.itemId = none := by
      unfold findById; rw [if_neg hmemn2]; rfl
    have p1 : preTransactionPhase { items := [i1], movements := ms, nextId := n }
        data = .error "Item not found" := by
      unfold preTransactionPhase
      simp only [f1]
    have p2 : preTransactionPhase { items := [i2], movements := ms, nextId := n }
        data = .error "Item not found" := by
      unfold preTransactionPhase
      simp only [f2]
    unfold createMovement
    simp only [p1, p2, itemQuantity, itemStatus, f1, f2]
    refine ⟨?_, ?_, ?_⟩ <;> trivial

/-- C10 witness: the independence theorem applied to an item whose thresholds
are crossed by the movement (after IN 5, the new quantity 8 is at or below
`tightItem.minQuantity = 50` and above `tightItem.maxQuantity = 4`) and an
item with harmless thresholds; results, quantity and status agree, and the
movement was accepted. -/
theorem claim10_witness :
    ((createMovement { items := [tightItem], movements := [], nextId := 0 }
        inFive none true).1 =
      (createMovement { items := [looseItem], movements := [], nextId := 0 }
        inFive none true).1 ∧
    itemQuantity (createMovement { items := [tightItem], movements := [], nextId := 0 }
        inFive none true).2 1 =
      itemQuantity (createMovement { items := [looseItem], movements := [], nextId := 0 }
        inFive none true).2 1 ∧
    itemStatus (createMovement { items := [tightItem], movements := [], nextId := 0 }
        inFive none true).2 1 =
      itemStatus (createMovement { items := [looseItem], movements := [], nextId := 0 }
        inFive none true).2 1) :=
  claim10_threshold_independence tightItem looseItem [] 0 inFive none true
    rfl rfl rfl

end Inventory
